import Mathlib

/-!
# Verification of the CleanSlide mask/crop editing core

Shallow embedding of the interactive editing engine of the `clean-slider`
repository: the mask data model (`src/types.ts`), the mask store CRUD
operations (`App.tsx`, here `src/unnamed/part_000`), the pointer-driven
draw/drag/resize interaction handlers (`src/components/PdfPreview.tsx`),
the crop-margin mutation logic (`src/components/CropControls.tsx`), the
export-time hex color parser and page clamping (`src/services/pdfService.ts`),
and the margin-detector error fallback (`src/services/geminiService.ts`).

Percentages and pixel coordinates are modelled as rationals (`ℚ`); JS
`undefined`-able fields become `Option`; functions that read the rendered
canvas (dominant-color sampling, snapshot capture) are passed as explicit
function parameters since their result depends on the raster contents.
-/

namespace CleanSlide

/-- `MaskFillType` from `src/types.ts`: strategy used to fill a mask. -/
inductive MaskFillType where
  | solid
  | cloneTop
  | cloneBottom
  | cloneLeft
  | cloneRight
deriving DecidableEq, Repr

/-- `Mask` from `src/types.ts`. `x`, `y`, `width`, `height` are percentages
of the rendered page (0–100, origin top-left); `imageSnapshot` is the
optional captured texture strip (a base64 PNG string in the source);
`pageIndex` is the optional 0-based page scope (`none` = all pages). -/
structure Mask where
  id : String
  x : ℚ
  y : ℚ
  width : ℚ
  height : ℚ
  color : String
  fillType : MaskFillType
  imageSnapshot : Option String
  pageIndex : Option ℕ
deriving DecidableEq, Repr

/-- `CropMargins` from `src/types.ts`: percentage strips cut from each edge. -/
structure CropMargins where
  top : ℚ
  bottom : ℚ
  left : ℚ
  right : ℚ
deriving DecidableEq, Repr

/-! ## Mask store (`App.tsx`) -/

/-- `handleAddMask` in `App.tsx`: a manually drawn mask is re-scoped to the
current (1-based) page and appended to the store. -/
def handleAddMask (masks : List Mask) (newMask : Mask) (currentPage : ℕ) :
    List Mask :=
  masks ++ [{ newMask with pageIndex := some (currentPage - 1) }]

/-- `handleUpdateMask` in `App.tsx`:
`setMasks(masks.map(m => m.id === updatedMask.id ? updatedMask : m))`. -/
def handleUpdateMask (masks : List Mask) (updatedMask : Mask) : List Mask :=
  masks.map (fun m => if m.id = updatedMask.id then updatedMask else m)

/-- `handleDeleteMask` in `App.tsx`: `masks.filter(m => m.id !== id)`. -/
def handleDeleteMask (masks : List Mask) (id : String) : List Mask :=
  masks.filter (fun m => m.id ≠ id)

/-- The per-page mask selection. The very same filter appears twice in the
source: `visibleMasks` in `PdfPreview.tsx` (with `p = currentPage - 1`) and
`pageMasks` in `modifyPdfWithMasks` in `pdfService.ts` (with `p = i`, the
0-based physical page index):
`masks.filter(m => m.pageIndex === undefined || m.pageIndex === p)`. -/
def selectMasksForPage (masks : List Mask) (p : ℕ) : List Mask :=
  masks.filter (fun m => m.pageIndex = none ∨ m.pageIndex = some p)

/-! ## Interaction handlers (`PdfPreview.tsx`) -/

/-- The eight resize handles of `PdfPreview.tsx`
(`type ResizeHandle = 'nw' | 'n' | 'ne' | 'e' | 'se' | 's' | 'sw' | 'w'`). -/
inductive ResizeHandle where
  | nw | n | ne | e | se | s | sw | w
deriving DecidableEq, Repr

/-- `activeHandle.includes('e')` for the compass-string handles. -/
def ResizeHandle.hasE : ResizeHandle → Bool
  | .ne | .e | .se => true
  | _ => false

/-- `activeHandle.includes('w')` for the compass-string handles. -/
def ResizeHandle.hasW : ResizeHandle → Bool
  | .nw | .sw | .w => true
  | _ => false

/-- `activeHandle.includes('n')` for the compass-string handles. -/
def ResizeHandle.hasN : ResizeHandle → Bool
  | .nw | .n | .ne => true
  | _ => false

/-- `activeHandle.includes('s')` for the compass-string handles. -/
def ResizeHandle.hasS : ResizeHandle → Bool
  | .se | .s | .sw => true
  | _ => false

/-- The DRAGGING branch of `handleGlobalMouseMove` in `PdfPreview.tsx`:
the committed mask is the interaction-start snapshot translated by the
percentage delta, with `imageSnapshot: undefined`. -/
def dragUpdate (initialMaskState : Mask) (dxPct dyPct : ℚ) : Mask :=
  { initialMaskState with
      x := initialMaskState.x + dxPct
      y := initialMaskState.y + dyPct
      imageSnapshot := none }

/-- The RESIZING branch of `handleGlobalMouseMove` in `PdfPreview.tsx`.
`newW`/`newH` start from the snapshot; the `e`/`s` sides grow with a
`Math.max(0.5, ...)` floor; the `w`/`n` sides move the origin and commit the
proposed size only when the proposed size is strictly above `0.5`, and
otherwise leave that axis's origin and size at the snapshot values.
The committed mask always has `imageSnapshot: undefined`. -/
def resizeUpdate (initialMaskState : Mask) (activeHandle : ResizeHandle)
    (dxPct dyPct : ℚ) : Mask :=
  let newX0 := initialMaskState.x
  let newY0 := initialMaskState.y
  let newW0 := if activeHandle.hasE then
      max (1/2) (initialMaskState.width + dxPct) else initialMaskState.width
  let newH0 := if activeHandle.hasS then
      max (1/2) (initialMaskState.height + dyPct) else initialMaskState.height
  let stepW : ℚ × ℚ := if activeHandle.hasW then
      (let proposedW := initialMaskState.width - dxPct
       if proposedW > 1/2 then (initialMaskState.x + dxPct, proposedW)
       else (newX0, newW0))
    else (newX0, newW0)
  let stepH : ℚ × ℚ := if activeHandle.hasN then
      (let proposedH := initialMaskState.height - dyPct
       if proposedH > 1/2 then (initialMaskState.y + dyPct, proposedH)
       else (newY0, newH0))
    else (newY0, newH0)
  { initialMaskState with
      x := stepW.1
      y := stepH.1
      width := stepW.2
      height := stepH.2
      imageSnapshot := none }

/-- A pointer position in container pixels (`startPos` / `currentPos`). -/
structure Pos where
  x : ℚ
  y : ℚ
deriving DecidableEq, Repr

/-- The DRAWING branch of `handleGlobalMouseUp` in `PdfPreview.tsx`.
`rect` is the container's bounding rectangle (pixel width and height);
`dominantColor` abstracts `getDominantColor`, which samples the rendered
canvas at the drawn rectangle. A mask is committed iff both raw pixel
extents strictly exceed 5; the committed mask is solid, colored by the
sampler, and scoped to the current page (`currentPage - 1`, 0-based). -/
def drawingMouseUp (startPos currentPos : Pos) (rectWidth rectHeight : ℚ)
    (dominantColor : ℚ → ℚ → ℚ → ℚ → String) (maskId : String)
    (currentPage : ℕ) : Option Mask :=
  let rawX := min startPos.x currentPos.x
  let rawY := min startPos.y currentPos.y
  let rawW := |currentPos.x - startPos.x|
  let rawH := |currentPos.y - startPos.y|
  if rawW > 5 ∧ rawH > 5 then
    some
      { id := maskId
        x := rawX / rectWidth * 100
        y := rawY / rectHeight * 100
        width := rawW / rectWidth * 100
        height := rawH / rectHeight * 100
        color := dominantColor rawX rawY rawW rawH
        fillType := .solid
        imageSnapshot := none
        pageIndex := some (currentPage - 1) }
  else
    none

/-- The store after a DRAWING pointer-up: `onAddMask` (wired to
`handleAddMask` in `App.tsx`) runs exactly when `drawingMouseUp` commits. -/
def drawingMouseUpStore (masks : List Mask) (startPos currentPos : Pos)
    (rectWidth rectHeight : ℚ) (dominantColor : ℚ → ℚ → ℚ → ℚ → String)
    (maskId : String) (currentPage : ℕ) : List Mask :=
  match drawingMouseUp startPos currentPos rectWidth rectHeight
      dominantColor maskId currentPage with
  | some m => handleAddMask masks m currentPage
  | none => masks

/-! ## Control panel (`CropControls.tsx`) -/

/-- The editable mask fields of the control panel, with the value types the
inputs produce: numeric x/y/width/height fields, the fillType selector and
the color inputs (`handleMaskChange`'s `key`/`value` pairs). -/
inductive MaskEdit where
  | setX (v : ℚ)
  | setY (v : ℚ)
  | setWidth (v : ℚ)
  | setHeight (v : ℚ)
  | setFillType (v : MaskFillType)
  | setColor (v : String)
deriving DecidableEq, Repr

/-- `handleMaskChange` in `CropControls.tsx`: builds `updates = {[key]: value}`,
adds `imageSnapshot: undefined` only when `key === 'fillType'`, and emits
`{ ...selectedMask, ...updates }`. -/
def handleMaskChange (selectedMask : Mask) : MaskEdit → Mask
  | .setX v => { selectedMask with x := v }
  | .setY v => { selectedMask with y := v }
  | .setWidth v => { selectedMask with width := v }
  | .setHeight v => { selectedMask with height := v }
  | .setFillType v => { selectedMask with fillType := v, imageSnapshot := none }
  | .setColor v => { selectedMask with color := v }

/-- `toggleMaskScope` in `CropControls.tsx`: page-specific becomes global,
global becomes scoped to the current page (0-based `currentPage - 1`). -/
def toggleMaskScope (selectedMask : Mask) (currentPage : ℕ) : Mask :=
  { selectedMask with
      pageIndex :=
        if selectedMask.pageIndex ≠ none then none
        else some (currentPage - 1) }

/-- The four crop-margin sides. -/
inductive MarginSide where
  | top | bottom | left | right
deriving DecidableEq, Repr

/-- The opposing side of each margin side, as paired by `handleChange`
(`top`↔`bottom`, `left`↔`right`). -/
def MarginSide.opposing : MarginSide → MarginSide
  | .top => .bottom
  | .bottom => .top
  | .left => .right
  | .right => .left

/-- Read one side of a `CropMargins` value. -/
def CropMargins.side (m : CropMargins) : MarginSide → ℚ
  | .top => m.top
  | .bottom => m.bottom
  | .left => m.left
  | .right => m.right

/-- Overwrite one side of a `CropMargins` value (`{ ...margins, [key]: v }`). -/
def CropMargins.setSide (m : CropMargins) : MarginSide → ℚ → CropMargins
  | .top, v => { m with top := v }
  | .bottom, v => { m with bottom := v }
  | .left, v => { m with left := v }
  | .right, v => { m with right := v }

/-- `handleChange` in `CropControls.tsx`: when the new value plus the current
opposing side exceeds 90, the stored value is clamped to `90 - opposing`;
only the edited side is replaced. -/
def handleChange (margins : CropMargins) (key : MarginSide) (value : ℚ) :
    CropMargins :=
  let safeValue :=
    if value + margins.side key.opposing > 90 then 90 - margins.side key.opposing
    else value
  margins.setSide key safeValue

/-! ## Snapshot backfill (`PdfPreview.tsx`, post-render useEffect) -/

/-- The write set of the snapshot-backfill effect in `PdfPreview.tsx`:
while not loading, it walks the masks visible on the current page and, for
each whose `fillType` is non-solid and whose `imageSnapshot` is absent,
captures a snapshot (abstracted as `capture`, which may fail with `none`)
and emits one `onUpdateMask` write carrying the captured snapshot. -/
def backfillWrites (loading : Bool) (masks : List Mask) (currentPage : ℕ)
    (capture : Mask → Option String) : List Mask :=
  if loading then []
  else
    (selectMasksForPage masks (currentPage - 1)).filterMap fun mask =>
      if mask.fillType ≠ .solid ∧ mask.imageSnapshot = none then
        (capture mask).map fun snapshot =>
          { mask with imageSnapshot := some snapshot }
      else none

/-- The store after the backfill effect: each emitted write goes through
`handleUpdateMask` (replace-by-id) in order. -/
def applyBackfill (masks : List Mask) (writes : List Mask) : List Mask :=
  writes.foldl handleUpdateMask masks

/-! ## Export helpers (`pdfService.ts`) -/

/-- An RGB color with components in `[0, 1]`, as consumed by `pdf-lib`'s
`rgb(r, g, b)`. -/
structure RgbColor where
  r : ℚ
  g : ℚ
  b : ℚ
deriving DecidableEq, Repr

/-- Numeric value of a hexadecimal digit, `none` for any other character. -/
def hexDigitVal (c : Char) : Option ℕ :=
  if '0' ≤ c ∧ c ≤ '9' then some (c.toNat - '0'.toNat)
  else if 'a' ≤ c ∧ c ≤ 'f' then some (c.toNat - 'a'.toNat + 10)
  else if 'A' ≤ c ∧ c ≤ 'F' then some (c.toNat - 'A'.toNat + 10)
  else none

/-- Accumulate the longest leading run of hex digits (`acc` is the value of
the digits already consumed). -/
def hexPrefixValAux (acc : ℕ) : List Char → ℕ
  | [] => acc
  | c :: cs =>
    match hexDigitVal c with
    | some d => hexPrefixValAux (acc * 16 + d) cs
    | none => acc

/-- Value of the longest leading run of hex digits; `none` when the list does
not start with a hex digit (JS `parseInt` returns `NaN` there). -/
def hexPrefixVal : List Char → Option ℕ
  | [] => none
  | c :: cs =>
    match hexDigitVal c with
    | some d => some (hexPrefixValAux d cs)
    | none => none

/-- JS `parseInt(s, 16)` drops an optional `0x`/`0X` prefix. -/
def strip0x : List Char → List Char
  | '0' :: 'x' :: cs => cs
  | '0' :: 'X' :: cs => cs
  | cs => cs

/-- JS `parseInt(s, 16)` on the short component strings produced by
`hexToRgb`'s slices: optional sign, optional `0x` prefix, then the longest
run of hex digits; `none` models `NaN`. -/
def jsParseInt16 (s : List Char) : Option ℤ :=
  match s with
  | '-' :: cs => (hexPrefixVal (strip0x cs)).map fun n => -(n : ℤ)
  | '+' :: cs => (hexPrefixVal (strip0x cs)).map fun n => (n : ℤ)
  | cs => (hexPrefixVal (strip0x cs)).map fun n => (n : ℤ)

/-- One color component of `hexToRgb`: `parseInt(slice, 16) / 255`, replaced
by `1` when the parse is `NaN`. -/
def hexComponent (s : List Char) : ℚ :=
  match jsParseInt16 s with
  | none => 1
  | some n => (n : ℚ) / 255

/-- `'#' + h[1]h[1] + h[2]h[2] + h[3]h[3]`: the short-hex expansion step of
`hexToRgb`, applied when the string has length 4. -/
def expandShortHex (cs : List Char) : List Char :=
  match cs with
  | [h0, h1, h2, h3] => [h0, h1, h1, h2, h2, h3, h3]
  | _ => cs

/-- JS `hex.startsWith('#')`: the first character is `'#'`. -/
def startsWithHash (cs : List Char) : Bool :=
  match cs with
  | '#' :: _ => true
  | _ => false

/-- The tail of `hexToRgb` after the string/`#` defaulting: short-hex
expansion, the length-7 check with `#FFFFFF` fallback, and the three
2-character slices parsed into components. -/
def hexToRgbFrom (cs : List Char) : RgbColor :=
  let safeHex1 := if cs.length = 4 then expandShortHex cs else cs
  let safeHex := if safeHex1.length ≠ 7 then "#FFFFFF".data else safeHex1
  { r := hexComponent ((safeHex.drop 1).take 2)
    g := hexComponent ((safeHex.drop 3).take 2)
    b := hexComponent ((safeHex.drop 5).take 2) }

/-- `hexToRgb` in `modifyPdfWithMasks` (`pdfService.ts`): non-strings and
strings without a leading `#` are replaced by `#FFFFFF`; a 4-character
string has each digit doubled; any remaining length other than 7 falls back
to `#FFFFFF`; then the three 2-character slices are parsed as hex and
divided by 255, with `NaN` components replaced by `1` (white). -/
def hexToRgb (hex : Option String) : RgbColor :=
  let safeHex0 : List Char :=
    match hex with
    | some h => if startsWithHash h.data then h.data else "#FFFFFF".data
    | none => "#FFFFFF".data
  hexToRgbFrom safeHex0

/-- The white color `hexToRgb` falls back to. -/
def whiteRgb : RgbColor := { r := 1, g := 1, b := 1 }

/-- The page clamp of `getPageAsImage` (`pdfService.ts`):
`Math.max(1, Math.min(pageNumber, pdf.numPages))`. -/
def safePageNumber (pageNumber numPages : ℤ) : ℤ :=
  max 1 (min pageNumber numPages)

/-! ## Margin detector (`geminiService.ts`) -/

/-- The raw JSON object parsed from the detector response: each margin field
may be absent (the schema does not make them required). -/
structure RawMargins where
  top : Option ℚ
  bottom : Option ℚ
  left : Option ℚ
  right : Option ℚ
deriving DecidableEq, Repr

/-- The `margins.top || 0` coercion applied to each parsed field. -/
def orZero : Option ℚ → ℚ
  | none => 0
  | some v => v

/-- Outcome of the `generateContent` call inside the `try` block: the call
may throw (network/timeout), or resolve with an optional `response.text`. -/
inductive ApiOutcome where
  | throws
  | responds (text : Option String)
deriving DecidableEq, Repr

/-- `detectWatermarkMargins` (`geminiService.ts`). The API-key guard throws
*before* the `try` block, so that error propagates to the caller; every
failure inside the `try` block — the API call throwing, a missing
`response.text` (re-thrown as an error), or `JSON.parse` failing (modelled
by the `parse` parameter returning `none`) — is caught and replaced by the
all-zero margins. On success each field is coerced with `|| 0`. -/
def detectWatermarkMargins (apiKeyMissing : Bool) (api : ApiOutcome)
    (parse : String → Option RawMargins) : Except String CropMargins :=
  if apiKeyMissing then .error "API Key is missing"
  else
    match api with
    | .throws => .ok { top := 0, bottom := 0, left := 0, right := 0 }
    | .responds none => .ok { top := 0, bottom := 0, left := 0, right := 0 }
    | .responds (some text) =>
      match parse text with
      | none => .ok { top := 0, bottom := 0, left := 0, right := 0 }
      | some m =>
        .ok
          { top := orZero m.top
            bottom := orZero m.bottom
            left := orZero m.left
            right := orZero m.right }

/-! ## Concrete sample values used by witnesses and counterexamples -/

/-- A clone-type mask that already carries a texture snapshot. -/
def sampleCloneMask : Mask :=
  { id := "mask-1", x := 10, y := 20, width := 30, height := 5
    color := "#FFFFFF", fillType := .cloneTop
    imageSnapshot := some "snap", pageIndex := some 0 }

/-- A solid mask without a snapshot. -/
def sampleSolidMask : Mask :=
  { id := "mask-2", x := 1, y := 2, width := 3, height := 4
    color := "#000000", fillType := .solid
    imageSnapshot := none, pageIndex := none }

/-- A mask whose width is already below the 0.5% practical minimum. -/
def thinMask : Mask :=
  { id := "mask-3", x := 10, y := 10, width := 3/10, height := 3/10
    color := "#FFFFFF", fillType := .solid
    imageSnapshot := none, pageIndex := some 0 }

/-! ## Theorems -/

/-- **C3.** The per-page selection (shared by the preview's `visibleMasks`
and the exporter's `pageMasks`) returns exactly the masks whose `pageIndex`
is undefined plus those whose `pageIndex` equals the target page, excludes
all others, and preserves the original insertion order (it is an
order-preserving sublist of the store). -/
theorem selectMasksForPage_correct (masks : List Mask) (p : ℕ) :
    (∀ m, m ∈ selectMasksForPage masks p ↔
      m ∈ masks ∧ (m.pageIndex = none ∨ m.pageIndex = some p)) ∧
    (selectMasksForPage masks p).Sublist masks := by
  constructor
  · intro m
    simp [selectMasksForPage, List.mem_filter]
  · exact List.filter_sublist _

/-- **C9.** `handleUpdateMask` replaces exactly the stored masks whose id
matches the update's id, keeps the length and every position (hence the
order) of the list, and is a complete no-op when no stored mask has that
id. -/
theorem handleUpdateMask_frame (masks : List Mask) (u : Mask) :
    (handleUpdateMask masks u).length = masks.length ∧
    (∀ i, (handleUpdateMask masks u).get? i =
      (masks.get? i).map fun m => if m.id = u.id then u else m) ∧
    ((∀ m ∈ masks, m.id ≠ u.id) → handleUpdateMask masks u = masks) := by
  refine ⟨by simp [handleUpdateMask], fun i => by simp [handleUpdateMask], ?_⟩
  intro h
  unfold handleUpdateMask
  induction masks with
  | nil => rfl
  | cons a l ih =>
    have ha : a.id ≠ u.id := h a (List.mem_cons_self a l)
    simp only [List.map_cons, if_neg ha, List.cons.injEq, true_and]
    exact ih fun m hm => h m (List.mem_cons_of_mem a hm)

/-- Witness for **C9**: updating with an id absent from the store leaves the
store unchanged. -/
theorem handleUpdateMask_frame_witness :
    handleUpdateMask [sampleCloneMask] sampleSolidMask = [sampleCloneMask] :=
  (handleUpdateMask_frame [sampleCloneMask] sampleSolidMask).2.2 (by decide)

/-- **C10.** `getPageAsImage` clamps the requested page to
`max(1, min(n, pageCount))`, so for any document with at least one page the
renderer is only ever asked for a page in `[1, pageCount]`; in-range
requests are passed through unchanged. -/
theorem safePageNumber_in_range (pageNumber numPages : ℤ)
    (h : 1 ≤ numPages) :
    1 ≤ safePageNumber pageNumber numPages ∧
    safePageNumber pageNumber numPages ≤ numPages ∧
    (1 ≤ pageNumber → pageNumber ≤ numPages →
      safePageNumber pageNumber numPages = pageNumber) := by
  unfold safePageNumber
  refine ⟨le_max_left _ _, max_le h (min_le_right _ _), fun h1 h2 => ?_⟩
  rw [min_eq_left h2, max_eq_right h1]

/-- Witness for **C10**: requesting page 99 of a 3-page document stays
within bounds. -/
theorem safePageNumber_in_range_witness :
    1 ≤ safePageNumber 99 3 ∧ safePageNumber 99 3 ≤ 3 :=
  ⟨(safePageNumber_in_range 99 3 (by norm_num)).1,
   (safePageNumber_in_range 99 3 (by norm_num)).2.1⟩

/-- **C6.** A single margin mutation stores the edited side clamped to
`90 - opposing` exactly when the new value plus the current opposing side
exceeds 90 (and the raw value otherwise); afterwards the edited opposing
pair sums to at most 90, and every other side is unchanged. -/
theorem handleChange_clamps (margins : CropMargins) (key : MarginSide)
    (v : ℚ) :
    ((handleChange margins key v).side key +
      (handleChange margins key v).side key.opposing ≤ 90) ∧
    (v + margins.side key.opposing > 90 →
      (handleChange margins key v).side key = 90 - margins.side key.opposing) ∧
    (v + margins.side key.opposing ≤ 90 →
      (handleChange margins key v).side key = v) ∧
    (∀ s, s ≠ key → (handleChange margins key v).side s = margins.side s) := by
  refine ⟨?_, ?_, ?_, ?_⟩
  · cases key <;>
      simp only [handleChange, MarginSide.opposing, CropMargins.side,
        CropMargins.setSide] <;>
      split_ifs with h <;> linarith
  · intro h
    cases key <;>
      simp_all only [handleChange, MarginSide.opposing, CropMargins.side,
        CropMargins.setSide, if_pos]
  · cases key <;> intro h <;>
      simp only [handleChange, MarginSide.opposing, CropMargins.side,
        CropMargins.setSide] at h ⊢ <;>
      rw [if_neg (by linarith)]
  · intro s hs
    cases key <;> cases s <;>
      simp_all only [handleChange, MarginSide.opposing, CropMargins.side,
        CropMargins.setSide, ne_eq, not_true_eq_false, not_false_eq_true]

/-- Witness for **C6**: setting `top = 60` while `bottom = 40` stores
`top = 50`. -/
theorem handleChange_clamps_witness :
    (handleChange { top := 0, bottom := 40, left := 0, right := 0 }
        .top 60).side .top = 90 - 40 :=
  (handleChange_clamps { top := 0, bottom := 40, left := 0, right := 0 }
      .top 60).2.1
    (by norm_num [CropMargins.side, MarginSide.opposing])

/-- **C1 (counterexample).** The claim that *every* geometry/scope update
path clears `imageSnapshot` is false: editing `x` through the control-panel
numeric field changes the geometry yet preserves the stale snapshot. -/
theorem maskChange_keeps_snapshot_cex :
    (handleMaskChange sampleCloneMask (.setX 42)).x ≠ sampleCloneMask.x ∧
    (handleMaskChange sampleCloneMask (.setX 42)).imageSnapshot
      = some "snap" ∧
    (toggleMaskScope sampleCloneMask 1).pageIndex ≠
      sampleCloneMask.pageIndex ∧
    (toggleMaskScope sampleCloneMask 1).imageSnapshot = some "snap" := by
  refine ⟨by decide, rfl, by decide, rfl⟩

/-- **C1 (amended).** Drag updates, resize updates, and the control-panel
fillType selector always clear `imageSnapshot`; but the control-panel
numeric x/y/width/height fields and the page-scope toggle preserve the
existing `imageSnapshot` unchanged. -/
theorem snapshot_invalidation_paths (m : Mask) (dx dy : ℚ)
    (h : ResizeHandle) (ft : MaskFillType) (v : ℚ) (page : ℕ) :
    (dragUpdate m dx dy).imageSnapshot = none ∧
    (resizeUpdate m h dx dy).imageSnapshot = none ∧
    (handleMaskChange m (.setFillType ft)).imageSnapshot = none ∧
    (handleMaskChange m (.setX v)).imageSnapshot = m.imageSnapshot ∧
    (handleMaskChange m (.setY v)).imageSnapshot = m.imageSnapshot ∧
    (handleMaskChange m (.setWidth v)).imageSnapshot = m.imageSnapshot ∧
    (handleMaskChange m (.setHeight v)).imageSnapshot = m.imageSnapshot ∧
    (toggleMaskScope m page).imageSnapshot = m.imageSnapshot :=
  ⟨rfl, rfl, rfl, rfl, rfl, rfl, rfl, rfl⟩

/-- **C2 (counterexample).** The claim that the committed width is *never*
below 0.5 is false when the interaction-start snapshot is already thinner
than 0.5%: shrinking such a mask from the `w` side leaves its sub-minimum
width in place, so the committed width stays below 0.5. -/
theorem resize_below_min_cex :
    (resizeUpdate thinMask .w (1/10) 0).width < 1/2 := by
  norm_num [resizeUpdate, thinMask, ResizeHandle.hasE, ResizeHandle.hasW,
    ResizeHandle.hasN, ResizeHandle.hasS]

/-- No resize handle is on both the west and the east side. -/
lemma hasW_not_hasE {h : ResizeHandle} (hw : h.hasW = true) :
    h.hasE = false := by
  cases h <;> simp_all [ResizeHandle.hasW, ResizeHandle.hasE]

/-- No resize handle is on both the north and the south side. -/
lemma hasN_not_hasS {h : ResizeHandle} (hn : h.hasN = true) :
    h.hasS = false := by
  cases h <;> simp_all [ResizeHandle.hasN, ResizeHandle.hasS]

/-- On a `w`-side handle, `resizeUpdate` moves `x` and commits the proposed
width only when the proposed width strictly exceeds 0.5. -/
lemma resizeUpdate_w_fields {h : ResizeHandle} (m : Mask) (dx dy : ℚ)
    (hw : h.hasW = true) :
    (resizeUpdate m h dx dy).x =
      (if m.width - dx > 1/2 then m.x + dx else m.x) ∧
    (resizeUpdate m h dx dy).width =
      (if m.width - dx > 1/2 then m.width - dx else m.width) := by
  cases h <;>
    simp_all only [resizeUpdate, ResizeHandle.hasE, ResizeHandle.hasW,
      Bool.false_eq_true, if_true, if_false] <;>
    split_ifs <;> simp_all

/-- On an `e`-side handle, `resizeUpdate` keeps `x` and floors the grown
width at 0.5. -/
lemma resizeUpdate_e_fields {h : ResizeHandle} (m : Mask) (dx dy : ℚ)
    (he : h.hasE = true) :
    (resizeUpdate m h dx dy).x = m.x ∧
    (resizeUpdate m h dx dy).width = max (1/2) (m.width + dx) := by
  cases h <;>
    simp_all only [resizeUpdate, ResizeHandle.hasE, ResizeHandle.hasW,
      Bool.false_eq_true, if_true, if_false] <;> simp_all

/-- A handle on neither horizontal side leaves `x` and `width` unchanged. -/
lemma resizeUpdate_we_none {h : ResizeHandle} (m : Mask) (dx dy : ℚ)
    (hw : h.hasW = false) (he : h.hasE = false) :
    (resizeUpdate m h dx dy).x = m.x ∧
    (resizeUpdate m h dx dy).width = m.width := by
  cases h <;>
    simp_all only [resizeUpdate, ResizeHandle.hasE, ResizeHandle.hasW,
      Bool.true_eq_false, if_true, if_false] <;> simp_all

/-- On an `n`-side handle, `resizeUpdate` moves `y` and commits the proposed
height only when the proposed height strictly exceeds 0.5. -/
lemma resizeUpdate_n_fields {h : ResizeHandle} (m : Mask) (dx dy : ℚ)
    (hn : h.hasN = true) :
    (resizeUpdate m h dx dy).y =
      (if m.height - dy > 1/2 then m.y + dy else m.y) ∧
    (resizeUpdate m h dx dy).height =
      (if m.height - dy > 1/2 then m.height - dy else m.height) := by
  cases h <;>
    simp_all only [resizeUpdate, ResizeHandle.hasN, ResizeHandle.hasS,
      Bool.false_eq_true, if_true, if_false] <;>
    split_ifs <;> simp_all

/-- On an `s`-side handle, `resizeUpdate` keeps `y` and floors the grown
height at 0.5. -/
lemma resizeUpdate_s_fields {h : ResizeHandle} (m : Mask) (dx dy : ℚ)
    (hs : h.hasS = true) :
    (resizeUpdate m h dx dy).y = m.y ∧
    (resizeUpdate m h dx dy).height = max (1/2) (m.height + dy) := by
  cases h <;>
    simp_all only [resizeUpdate, ResizeHandle.hasN, ResizeHandle.hasS,
      Bool.false_eq_true, if_true, if_false] <;> simp_all

/-- A handle on neither vertical side leaves `y` and `height` unchanged. -/
lemma resizeUpdate_ns_none {h : ResizeHandle} (m : Mask) (dx dy : ℚ)
    (hn : h.hasN = false) (hs : h.hasS = false) :
    (resizeUpdate m h dx dy).y = m.y ∧
    (resizeUpdate m h dx dy).height = m.height := by
  cases h <;>
    simp_all only [resizeUpdate, ResizeHandle.hasN, ResizeHandle.hasS,
      Bool.true_eq_false, if_true, if_false] <;> simp_all

/-- **C2 (amended).** Provided the interaction-start snapshot satisfies the
0.5% minimum on both axes, every pointer-move commit of a resize keeps
width and height at or above 0.5; the origin `x` (resp. `y`) moves away
from the snapshot only when the committed width (resp. height) is strictly
above 0.5, and when the proposed width (resp. height) fails to exceed 0.5
both that axis's origin and size are left at the snapshot values; growing
with `e`/`s` is unconstrained except for the `max(0.5, ·)` floor. -/
theorem resize_min_size (m : Mask) (h : ResizeHandle) (dx dy : ℚ)
    (hW : 1/2 ≤ m.width) (hH : 1/2 ≤ m.height) :
    (1/2 ≤ (resizeUpdate m h dx dy).width) ∧
    (1/2 ≤ (resizeUpdate m h dx dy).height) ∧
    (h.hasW = true → (resizeUpdate m h dx dy).x ≠ m.x →
      1/2 < (resizeUpdate m h dx dy).width) ∧
    (h.hasW = true → m.width - dx ≤ 1/2 →
      (resizeUpdate m h dx dy).x = m.x ∧
      (resizeUpdate m h dx dy).width = m.width) ∧
    (h.hasN = true → (resizeUpdate m h dx dy).y ≠ m.y →
      1/2 < (resizeUpdate m h dx dy).height) ∧
    (h.hasN = true → m.height - dy ≤ 1/2 →
      (resizeUpdate m h dx dy).y = m.y ∧
      (resizeUpdate m h dx dy).height = m.height) ∧
    (h.hasE = true →
      (resizeUpdate m h dx dy).width = max (1/2) (m.width + dx)) ∧
    (h.hasS = true →
      (resizeUpdate m h dx dy).height = max (1/2) (m.height + dy)) := by
  refine ⟨?_, ?_, ?_, ?_, ?_, ?_, ?_, ?_⟩
  · cases hE : h.hasE with
    | true => rw [(resizeUpdate_e_fields m dx dy hE).2]; exact le_max_left _ _
    | false =>
      cases hWs : h.hasW with
      | false => rw [(resizeUpdate_we_none m dx dy hWs hE).2]; exact hW
      | true =>
        rw [(resizeUpdate_w_fields m dx dy hWs).2]
        split_ifs with hc
        · linarith
        · exact hW
  · cases hS : h.hasS with
    | true => rw [(resizeUpdate_s_fields m dx dy hS).2]; exact le_max_left _ _
    | false =>
      cases hN : h.hasN with
      | false => rw [(resizeUpdate_ns_none m dx dy hN hS).2]; exact hH
      | true =>
        rw [(resizeUpdate_n_fields m dx dy hN).2]
        split_ifs with hc
        · linarith
        · exact hH
  · intro hw hx
    obtain ⟨hxx, hww⟩ := resizeUpdate_w_fields m dx dy hw
    rw [hxx] at hx
    rw [hww]
    by_cases hc : m.width - dx > 1/2
    · rw [if_pos hc]; exact hc
    · rw [if_neg hc] at hx; exact absurd rfl hx
  · intro hw hle
    obtain ⟨hxx, hww⟩ := resizeUpdate_w_fields m dx dy hw
    have hc : ¬(m.width - dx > 1/2) := not_lt.mpr hle
    rw [hxx, hww, if_neg hc, if_neg hc]
    exact ⟨rfl, rfl⟩
  · intro hn hy
    obtain ⟨hyy, hhh⟩ := resizeUpdate_n_fields m dx dy hn
    rw [hyy] at hy
    rw [hhh]
    by_cases hc : m.height - dy > 1/2
    · rw [if_pos hc]; exact hc
    · rw [if_neg hc] at hy; exact absurd rfl hy
  · intro hn hle
    obtain ⟨hyy, hhh⟩ := resizeUpdate_n_fields m dx dy hn
    have hc : ¬(m.height - dy > 1/2) := not_lt.mpr hle
    rw [hyy, hhh, if_neg hc, if_neg hc]
    exact ⟨rfl, rfl⟩
  · intro he
    exact (resizeUpdate_e_fields m dx dy he).2
  · intro hs
    exact (resizeUpdate_s_fields m dx dy hs).2

/-- Witness for **C2 (amended)**: shrinking `sampleCloneMask` (width 30)
from the `w` side by one percent keeps the width at or above 0.5. -/
theorem resize_min_size_witness :
    1/2 ≤ (resizeUpdate sampleCloneMask .w 1 0).width :=
  (resize_min_size sampleCloneMask .w 1 0 (by norm_num [sampleCloneMask])
    (by norm_num [sampleCloneMask])).1

/-- **C4.** A DRAWING pointer-up commits exactly one new mask — appended to
the store — iff the drawn rectangle strictly exceeds 5 pixels on both axes;
the committed mask is solid, colored by the dominant-color sampler applied
to the drawn region, and scoped to the current page (0-based
`currentPage - 1`); otherwise nothing is committed and the store is
unchanged. -/
theorem drawing_commit_spec (masks : List Mask) (s c : Pos)
    (rectW rectH : ℚ) (f : ℚ → ℚ → ℚ → ℚ → String) (maskId : String)
    (page : ℕ) :
    ((|c.x - s.x| > 5 ∧ |c.y - s.y| > 5) →
      ∃ m, drawingMouseUp s c rectW rectH f maskId page = some m ∧
        drawingMouseUpStore masks s c rectW rectH f maskId page =
          masks ++ [m] ∧
        m.fillType = .solid ∧
        m.pageIndex = some (page - 1) ∧
        m.color = f (min s.x c.x) (min s.y c.y) |c.x - s.x| |c.y - s.y|) ∧
    (¬(|c.x - s.x| > 5 ∧ |c.y - s.y| > 5) →
      drawingMouseUp s c rectW rectH f maskId page = none ∧
      drawingMouseUpStore masks s c rectW rectH f maskId page = masks) := by
  constructor
  · intro hgt
    have h1 : drawingMouseUp s c rectW rectH f maskId page =
        some
          { id := maskId
            x := min s.x c.x / rectW * 100
            y := min s.y c.y / rectH * 100
            width := |c.x - s.x| / rectW * 100
            height := |c.y - s.y| / rectH * 100
            color := f (min s.x c.x) (min s.y c.y) |c.x - s.x| |c.y - s.y|
            fillType := .solid
            imageSnapshot := none
            pageIndex := some (page - 1) } := by
      unfold drawingMouseUp
      rw [if_pos hgt]
    refine ⟨_, h1, ?_, rfl, rfl, rfl⟩
    unfold drawingMouseUpStore
    rw [h1]
    rfl
  · intro hng
    have h1 : drawingMouseUp s c rectW rectH f maskId page = none := by
      unfold drawingMouseUp
      rw [if_neg hng]
    refine ⟨h1, ?_⟩
    unfold drawingMouseUpStore
    rw [h1]

/-- Witness for **C4**: on a 100×100 container, a 10×10-pixel drag commits
a mask while a 3×3-pixel drag commits nothing. -/
theorem drawing_commit_spec_witness :
    drawingMouseUp { x := 0, y := 0 } { x := 10, y := 10 } 100 100
      (fun _ _ _ _ => "#ABCDEF") "mask-9" 2 ≠ none ∧
    drawingMouseUp { x := 0, y := 0 } { x := 3, y := 3 } 100 100
      (fun _ _ _ _ => "#ABCDEF") "mask-9" 2 = none := by
  constructor
  · obtain ⟨m, hm, -⟩ :=
      (drawing_commit_spec [] { x := 0, y := 0 } { x := 10, y := 10 } 100 100
        (fun _ _ _ _ => "#ABCDEF") "mask-9" 2).1 (by norm_num)
    simp [hm]
  · exact ((drawing_commit_spec [] { x := 0, y := 0 } { x := 3, y := 3 }
      100 100 (fun _ _ _ _ => "#ABCDEF") "mask-9" 2).2 (by norm_num)).1

/-- **C5 (counterexample).** Not every failure of the margin detection falls
back to zero margins: a missing API key is a failure cause that throws
*before* the `try` block and so propagates an error to the caller instead
of yielding the all-zero margins. -/
theorem detect_margins_propagates_cex :
    detectWatermarkMargins true .throws (fun _ => none) =
      .error "API Key is missing" ∧
    detectWatermarkMargins true .throws (fun _ => none) ≠
      .ok { top := 0, bottom := 0, left := 0, right := 0 } :=
  ⟨rfl, fun h => Except.noConfusion h⟩

/-- **C5 (amended).** Every failure inside the detector's guarded request —
the API call throwing, a missing response text, or a JSON-parse failure —
falls back to the all-zero margins instead of propagating an error; only
the missing-API-key check, which runs before the guarded region, propagates
an error to the caller. -/
theorem detect_margins_fallback (api : ApiOutcome)
    (parse : String → Option RawMargins) (t : String) :
    detectWatermarkMargins false .throws parse =
      .ok { top := 0, bottom := 0, left := 0, right := 0 } ∧
    detectWatermarkMargins false (.responds none) parse =
      .ok { top := 0, bottom := 0, left := 0, right := 0 } ∧
    (parse t = none →
      detectWatermarkMargins false (.responds (some t)) parse =
        .ok { top := 0, bottom := 0, left := 0, right := 0 }) ∧
    detectWatermarkMargins true api parse = .error "API Key is missing" := by
  refine ⟨rfl, rfl, fun hp => ?_, rfl⟩
  simp [detectWatermarkMargins, hp]

/-- Witness for **C5 (amended)**: an unparphrasable response body yields the
zero-margin fallback. -/
theorem detect_margins_fallback_witness :
    detectWatermarkMargins false (.responds (some "not json"))
      (fun _ => none) =
      .ok { top := 0, bottom := 0, left := 0, right := 0 } :=
  (detect_margins_fallback .throws (fun _ => none) "not json").2.2.1 rfl

/-- **C7.** The snapshot-backfill reconciliation writes only for visible
non-solid masks lacking a snapshot, so on a store where every visible
non-solid mask already has a snapshot it emits no writes and applying it
leaves the store unchanged. -/
theorem backfill_idempotent (loading : Bool) (masks : List Mask)
    (page : ℕ) (capture : Mask → Option String)
    (hAll : ∀ m ∈ selectMasksForPage masks (page - 1),
      m.fillType ≠ .solid → m.imageSnapshot ≠ none) :
    backfillWrites loading masks page capture = [] ∧
    applyBackfill masks (backfillWrites loading masks page capture) =
      masks := by
  have hw : backfillWrites loading masks page capture = [] := by
    unfold backfillWrites
    split_ifs
    · rfl
    · rw [List.filterMap_eq_nil_iff]
      intro m hm
      exact if_neg fun hP => hAll m hm hP.1 hP.2
  exact ⟨hw, by rw [hw]; rfl⟩

/-- Witness for **C7**: a store with a snapshot-carrying clone mask and a
solid mask produces no backfill writes. -/
theorem backfill_idempotent_witness :
    backfillWrites false [sampleCloneMask, sampleSolidMask] 1
      (fun _ => some "texture") = [] :=
  (backfill_idempotent false [sampleCloneMask, sampleSolidMask] 1
    (fun _ => some "texture") (by decide)).1

/-- The hex pair `FF` parses to the full component `1`. -/
lemma hexComponent_FF : hexComponent ['F', 'F'] = 1 := by
  have h : jsParseInt16 ['F', 'F'] = some 255 := by decide
  simp only [hexComponent, h]
  norm_num

/-- The hex pair `00` parses to the zero component. -/
lemma hexComponent_00 : hexComponent ['0', '0'] = 0 := by
  have h : jsParseInt16 ['0', '0'] = some 0 := by decide
  simp only [hexComponent, h]
  norm_num

/-- All-white fallback: the defaulted string `#FFFFFF` parses to white. -/
lemma hexToRgbFrom_FFFFFF : hexToRgbFrom "#FFFFFF".data = whiteRgb := by
  calc hexToRgbFrom "#FFFFFF".data
      = { r := hexComponent ['F', 'F'], g := hexComponent ['F', 'F'],
          b := hexComponent ['F', 'F'] } := rfl
    _ = whiteRgb := by rw [hexComponent_FF]; rfl

/-- **C8 (counterexample).** Short-form hex is *not* defaulted to white: the
4-character form is expanded digit-by-digit, so `#F00` parses to red. -/
theorem hexToRgb_short_form_cex :
    hexToRgb (some "#F00") = { r := 1, g := 0, b := 0 } ∧
    hexToRgb (some "#F00") ≠ whiteRgb := by
  have heq : hexToRgb (some "#F00") = { r := 1, g := 0, b := 0 } := by
    calc hexToRgb (some "#F00")
        = { r := hexComponent ['F', 'F'], g := hexComponent ['0', '0'],
            b := hexComponent ['0', '0'] } := rfl
      _ = { r := 1, g := 0, b := 0 } := by
          rw [hexComponent_FF, hexComponent_00]
  refine ⟨heq, ?_⟩
  rw [heq]
  intro hcontra
  have hg : (0 : ℚ) = 1 := congrArg RgbColor.g hcontra
  norm_num at hg

/-- **C8 (amended).** The export-time hex parser is total (never throws)
and tolerates malformed input: a non-string or a string without a leading
`#` yields white, a `#`-string whose length is neither 4 nor 7 yields
white, and a 4-character short form is expanded by doubling each digit
(rather than defaulting to white), so e.g. `#FFF` is white but `#F00` is
red. -/
theorem hexToRgb_malformed (s : String) (a b c : Char) :
    hexToRgb none = whiteRgb ∧
    (startsWithHash s.data = false → hexToRgb (some s) = whiteRgb) ∧
    (startsWithHash s.data = true → s.data.length ≠ 4 →
      s.data.length ≠ 7 → hexToRgb (some s) = whiteRgb) ∧
    hexToRgb (some (String.mk ['#', a, b, c])) =
      hexToRgb (some (String.mk ['#', a, a, b, b, c, c])) := by
  refine ⟨hexToRgbFrom_FFFFFF, fun h => ?_, fun h1 h2 h3 => ?_, rfl⟩
  · show hexToRgbFrom
      (if startsWithHash s.data then s.data else "#FFFFFF".data) = whiteRgb
    rw [h, if_neg (by decide)]
    exact hexToRgbFrom_FFFFFF
  · show hexToRgbFrom
      (if startsWithHash s.data then s.data else "#FFFFFF".data) = whiteRgb
    rw [h1, if_pos rfl]
    show hexToRgbFrom s.data = whiteRgb
    simp only [hexToRgbFrom]
    rw [if_neg h2]
    rw [if_pos h3]
    exact hexToRgbFrom_FFFFFF

/-- Witness for **C8 (amended)**: a hash-less string and a wrong-length
`#`-string both parse as white. -/
theorem hexToRgb_malformed_witness :
    hexToRgb (some "FF0000") = whiteRgb ∧
    hexToRgb (some "#12345") = whiteRgb := by
  constructor
  · exact (hexToRgb_malformed "FF0000" 'x' 'x' 'x').2.1 (by decide)
  · exact (hexToRgb_malformed "#12345" 'x' 'x' 'x').2.2.1 (by decide)
      (by decide) (by decide)

end CleanSlide
